import Mathlib

/-!
Verification of the `rebalance_liquidity` action of this repository.

The repository contains two near-duplicate implementations:
- the core action in
  `python/cdp-agentkit-core/cdp_agentkit_core/actions/defi/rebalance_liquidity.py`
  (namespace `Core` below), and
- the chatbot variant in `python/examples/cdp-langchain-chatbot/chatbot.py`
  (namespace `Chatbot` below).

Both are shallowly embedded as pure functions producing a trace of external
wallet events (`invoke_contract` submissions and `wait` confirmations) and a
final result that is either a returned status string or a propagated Python
exception (modelled as a tagged message string).  The external wallet is
modelled by an environment assigning to the k-th contract call its outcome:
the `invoke_contract` call raising, the `wait` call raising, or the `wait`
call returning a result dictionary.
-/

namespace LPRebalance

/-- A Python value appearing in argument dictionaries and position
dictionaries: `None`, a string, or an integer. -/
inductive Val where
  | none : Val
  | s : String → Val
  | i : Int → Val
deriving DecidableEq

/-- An argument dictionary passed to `invoke_contract` (insertion order kept). -/
abbrev Args := List (String × Val)

/-- A result dictionary returned by `invocation.wait()`. -/
abbrev Dict := List (String × String)

/-- A position dictionary returned by `wallet.get_liquidity_position`. -/
abbrev PosDict := List (String × Val)

/-- One `wallet.invoke_contract(contract_address=..., method=..., args=...)`
submission. -/
structure Invocation where
  contract_address : String
  method : String
  args : Args
deriving DecidableEq

/-- Observable external events: a contract invocation being issued, and
`wait()` being called on (and confirming) an invocation. -/
inductive Event where
  | invoked : Invocation → Event
  | waited : Invocation → Event
deriving DecidableEq

/-- The outcome the external SDK gives to one contract call: the
`invoke_contract` itself raises, the `wait()` raises, or the `wait()`
returns a result dictionary. -/
inductive CallOutcome where
  | invokeRaises : String → CallOutcome
  | waitRaises : String → CallOutcome
  | ok : Dict → CallOutcome
deriving DecidableEq

/-- The externally supplied wallet object.  `env k` is the outcome of the
k-th contract call issued during one run of the action.  The last two
fields model the chatbot-only helpers `get_liquidity_position` and
`has_token_approval`. -/
structure Wallet where
  address : String
  env : Nat → CallOutcome
  get_liquidity_position : String → Option PosDict
  has_token_approval : String → String → Bool

/-- Outcome of a whole run: the trace of external events and either the
returned status string or the propagated exception. -/
structure Exec where
  events : List Event
  result : Except String String

/-- Run a sequence of contract calls: each planned invocation is issued and
then waited on; a raised exception aborts the sequence and propagates.  On
success the result dictionary of the last call is returned (`last` is the
accumulator carrying it). -/
def runCalls (env : Nat → CallOutcome) : Nat → Dict → List Invocation → List Event × Except String Dict
  | _, last, [] => ([], Except.ok last)
  | k, _, inv :: rest =>
    match env k with
    | CallOutcome.invokeRaises e => ([], Except.error e)
    | CallOutcome.waitRaises e => ([Event.invoked inv], Except.error e)
    | CallOutcome.ok d =>
      let r := runCalls env (k + 1) d rest
      (Event.invoked inv :: Event.waited inv :: r.1, r.2)

/-- Package a call-sequence outcome into an `Exec`, formatting the final
result dictionary into the returned status string on success. -/
def finish (r : List Event × Except String Dict) (f : Dict → String) : Exec :=
  { events := r.1,
    result := match r.2 with
              | Except.error e => Except.error e
              | Except.ok d => Except.ok (f d) }

/-- The invocations issued during a trace, in order. -/
def invocationsOf (events : List Event) : List Invocation :=
  events.filterMap (fun e => match e with
    | Event.invoked i => some i
    | Event.waited _ => Option.none)

/-- The contract methods invoked during a trace, in order. -/
def methodsOf (events : List Event) : List String :=
  (invocationsOf events).map Invocation.method

/-- An environment in which every contract call succeeds, the k-th wait
returning `res k`. -/
def okEnv (res : Nat → Dict) : Nat → CallOutcome := fun k => CallOutcome.ok (res k)

/-- Python dictionary `d.get(k, dflt)` on a result dictionary. -/
def dGet (d : Dict) (k dflt : String) : String :=
  match d.find? (fun p => p.1 == k) with
  | some p => p.2
  | Option.none => dflt

/-- Python dictionary `d.get(k)` on a position dictionary (default `None`). -/
def pget (d : PosDict) (k : String) : Val :=
  match d.find? (fun p => p.1 == k) with
  | some p => p.2
  | Option.none => Val.none

/-- Python truthiness of an optional string (`not x` is true exactly when
this is true): `None` and `""` are falsy. -/
def pyStrOptFalsy : Option String → Bool
  | Option.none => true
  | some s => s == ""

/-- Python truthiness of a `Val`. -/
def Val.truthy : Val → Bool
  | Val.none => false
  | Val.s v => !(v == "")
  | Val.i n => !(n == 0)

/-- Python equality `v == t` between a `Val` and a string literal: only a
string value can compare equal to a string. -/
def Val.eqStr : Val → String → Bool
  | Val.s v, t => v == t
  | _, _ => false

/-- Python `str()` of a `Val`, as used by f-string interpolation. -/
def Val.pyStr : Val → String
  | Val.none => "None"
  | Val.s v => v
  | Val.i n => toString n

/-- Base codepoints of the Unicode 15.0 decimal-digit (Nd) ranges: each
starts a run of ten consecutive digits 0-9, and Python `int()` accepts a
digit from any of them. -/
def ndBases : List Nat :=
  [0x30, 0x660, 0x6F0, 0x7C0, 0x966, 0x9E6, 0xA66, 0xAE6, 0xB66, 0xBE6,
   0xC66, 0xCE6, 0xD66, 0xDE6, 0xE50, 0xED0, 0xF20, 0x1040, 0x1090, 0x17E0,
   0x1810, 0x1946, 0x19D0, 0x1A80, 0x1A90, 0x1B50, 0x1BB0, 0x1C40, 0x1C50,
   0xA620, 0xA8D0, 0xA900, 0xA9D0, 0xA9F0, 0xAA50, 0xABF0, 0xFF10,
   0x104A0, 0x10D30, 0x11066, 0x110F0, 0x11136, 0x111D0, 0x112F0, 0x11450,
   0x114D0, 0x11650, 0x116C0, 0x11730, 0x118E0, 0x11950, 0x11C50, 0x11D50,
   0x11DA0, 0x11F50, 0x16A60, 0x16AC0, 0x16B50, 0x1D7CE, 0x1D7D8, 0x1D7E2,
   0x1D7EC, 0x1D7F6, 0x1E140, 0x1E2F0, 0x1E4F0, 0x1E950, 0x1FBF0]

/-- The decimal value of a character when it is a Unicode decimal digit. -/
def digitVal? (c : Char) : Option Nat :=
  (ndBases.find? (fun b => b ≤ c.toNat && c.toNat ≤ b + 9)).map (fun b => c.toNat - b)

/-- Python whitespace, as stripped by `int()` around the literal body. -/
def pyWhitespace (c : Char) : Bool :=
  ([0x9, 0xA, 0xB, 0xC, 0xD, 0x1C, 0x1D, 0x1E, 0x1F, 0x20, 0x85, 0xA0, 0x1680,
    0x2000, 0x2001, 0x2002, 0x2003, 0x2004, 0x2005, 0x2006, 0x2007, 0x2008,
    0x2009, 0x200A, 0x2028, 0x2029, 0x202F, 0x205F, 0x3000] : List Nat).contains c.toNat

/-- Helper for `pyIntOfString`: continue a digit run after at least one
digit has been read, allowing PEP 515 single underscores between digits. -/
def digitsUndAux (a : Nat) : List Char → Option Nat
  | [] => some a
  | c :: rest =>
    if c = '_' then
      match rest with
      | [] => Option.none
      | d :: rest2 =>
        match digitVal? d with
        | some v => digitsUndAux (a * 10 + v) rest2
        | Option.none => Option.none
    else
      match digitVal? c with
      | some v => digitsUndAux (a * 10 + v) rest
      | Option.none => Option.none

/-- A nonempty Unicode decimal-digit run with PEP 515 underscore grouping:
it starts and ends with a digit and every underscore sits between two
digits. -/
def digitsUnd : List Char → Option Nat
  | [] => Option.none
  | c :: rest =>
    match digitVal? c with
    | some v => digitsUndAux v rest
    | Option.none => Option.none

/-- Strip leading and trailing Python whitespace from a character list. -/
def trimChars (cs : List Char) : List Char :=
  ((cs.dropWhile pyWhitespace).reverse.dropWhile pyWhitespace).reverse

/-- Python `int(s)` on a string: surrounding whitespace stripped, an
optional ASCII sign, then a nonempty run of Unicode decimal digits with
optional PEP 515 underscore grouping; anything else fails. -/
def pyIntOfString (s : String) : Option Int :=
  match trimChars s.data with
  | '+' :: rest => (digitsUnd rest).map (fun n => (n : Int))
  | '-' :: rest => (digitsUnd rest).map (fun n => -(n : Int))
  | cs => (digitsUnd cs).map (fun n => (n : Int))

/-- Python `int(x)` on an optional string argument: `None` raises
`TypeError`, an unparseable string raises `ValueError`. -/
def pyInt : Option String → Except String Int
  | Option.none =>
    Except.error "TypeError: int() argument must be a string, a bytes-like object or a real number, not NoneType"
  | some s =>
    match pyIntOfString s with
    | some n => Except.ok n
    | Option.none => Except.error ("ValueError: invalid literal for int() with base 10: " ++ s)

/-- The early-return message of both implementations for an invalid or
zero-liquidity existing position. -/
def invalidPositionMsg : String :=
  "Existing liquidity position is invalid or has zero liquidity."

/-- The status string returned after creating a fresh position. -/
def createdMsg (tokenId pool : String) (tick_a tick_b : Int) : String :=
  "Liquidity position created with token ID " ++ tokenId ++ " in pool " ++ pool ++
    " with tick range [" ++ toString tick_a ++ ", " ++ toString tick_b ++ "]."

/-- The status string returned after rebalancing an existing position. -/
def rebalancedMsg (oldId newId pool : String) (tick_a tick_b : Int) : String :=
  "Liquidity position rebalanced. Old position (token ID " ++ oldId ++ ") removed. " ++
    "New liquidity position created with token ID " ++ newId ++ " in pool " ++ pool ++
    " with tick range [" ++ toString tick_a ++ ", " ++ toString tick_b ++ "]."

namespace Core

/-- NonfungiblePositionManager address used by the core action (Base mainnet). -/
def NM_POSITION_MANAGER : String := "0x03a520b32C04BF3bEEf7BEb72E919cf822Ed34f1"

/-- The `mint` argument dictionary of the core action (both branches build
the identical dictionary, including the extra `pool` key). -/
def mint_args (address : String) (tick_a tick_b : Int)
    (pool token0 token1 amount0Desired amount1Desired : String) : Args :=
  [("token0", Val.s token0), ("token1", Val.s token1), ("fee", Val.i 3000),
   ("tickLower", Val.i tick_a), ("tickUpper", Val.i tick_b),
   ("amount0Desired", Val.s amount0Desired), ("amount1Desired", Val.s amount1Desired),
   ("amount0Min", Val.s "0"), ("amount1Min", Val.s "0"),
   ("recipient", Val.s address), ("deadline", Val.i 9999999999),
   ("pool", Val.s pool)]

/-- The `mint` invocation of the core action. -/
def mint_inv (address : String) (tick_a tick_b : Int)
    (pool token0 token1 amount0Desired amount1Desired : String) : Invocation :=
  ⟨NM_POSITION_MANAGER, "mint",
    mint_args address tick_a tick_b pool token0 token1 amount0Desired amount1Desired⟩

/-- The `decreaseLiquidity` invocation of the core action. -/
def decrease_inv (tokenId liquidity pool : String) : Invocation :=
  ⟨NM_POSITION_MANAGER, "decreaseLiquidity",
    [("tokenId", Val.s tokenId), ("liquidity", Val.s liquidity),
     ("amount0Min", Val.s "0"), ("amount1Min", Val.s "0"),
     ("deadline", Val.i 9999999999), ("pool", Val.s pool)]⟩

/-- The `collect` invocation of the core action. -/
def collect_inv (tokenId address amount0Desired amount1Desired : String) : Invocation :=
  ⟨NM_POSITION_MANAGER, "collect",
    [("tokenId", Val.s tokenId), ("recipient", Val.s address),
     ("amount0Max", Val.s amount0Desired), ("amount1Max", Val.s amount1Desired)]⟩

/-- The `burn` invocation of the core action. -/
def burn_inv (tokenId pool : String) : Invocation :=
  ⟨NM_POSITION_MANAGER, "burn", [("tokenId", Val.s tokenId), ("pool", Val.s pool)]⟩

/-- Shallow embedding of `rebalance_liquidity` from
`cdp_agentkit_core/actions/defi/rebalance_liquidity.py`. -/
def rebalance_liquidity (wallet : Wallet) (tick_a tick_b : Int)
    (pool token0 token1 amount0Desired amount1Desired : String)
    (existing_position : Bool)
    (existing_tokenId existing_liquidity : Option String) : Exec :=
  if existing_position = false then
    finish (runCalls wallet.env 0 []
        [mint_inv wallet.address tick_a tick_b pool token0 token1 amount0Desired amount1Desired])
      (fun d => createdMsg (dGet d "tokenId" "unknown") pool tick_a tick_b)
  else
    if pyStrOptFalsy existing_tokenId then
      { events := [], result := Except.ok invalidPositionMsg }
    else
      match pyInt existing_liquidity with
      | Except.error e => { events := [], result := Except.error e }
      | Except.ok n =>
        if n = 0 then
          { events := [], result := Except.ok invalidPositionMsg }
        else
          let tokenId := existing_tokenId.getD ""
          let liquidity := existing_liquidity.getD ""
          finish (runCalls wallet.env 0 []
              [decrease_inv tokenId liquidity pool,
               collect_inv tokenId wallet.address amount0Desired amount1Desired,
               burn_inv tokenId pool,
               mint_inv wallet.address tick_a tick_b pool token0 token1 amount0Desired amount1Desired])
            (fun d => rebalancedMsg tokenId (dGet d "tokenId" "unknown") pool tick_a tick_b)

end Core

namespace Chatbot

/-- NonfungiblePositionManager address used by the chatbot variant (Base
sepolia). -/
def NM_POSITION_MANAGER : String := "0x27F971cb582BF9E50F397e4d29a5C7A34f11faA2"

/-- Python truthiness of the value returned by `get_liquidity_position`:
`None` and the empty dictionary are falsy. -/
def posFalsy : Option PosDict → Bool
  | Option.none => true
  | some d => d.isEmpty

/-- An ERC-20 `approve` invocation issued on a token contract. -/
def approve_inv (token amount : String) : Invocation :=
  ⟨token, "approve",
    [("spender", Val.s NM_POSITION_MANAGER), ("value", Val.s amount)]⟩

/-- The `mint` invocation of the chatbot variant (no `pool` key). -/
def mint_inv (address : String) (tick_a tick_b : Int)
    (token0 token1 amount0Desired amount1Desired : String) : Invocation :=
  ⟨NM_POSITION_MANAGER, "mint",
    [("token0", Val.s token0), ("token1", Val.s token1), ("fee", Val.i 3000),
     ("tickLower", Val.i tick_a), ("tickUpper", Val.i tick_b),
     ("amount0Desired", Val.s amount0Desired), ("amount1Desired", Val.s amount1Desired),
     ("amount0Min", Val.s "0"), ("amount1Min", Val.s "0"),
     ("recipient", Val.s address), ("deadline", Val.i 9999999999)]⟩

/-- The `decreaseLiquidity` invocation of the chatbot variant (no `pool`
key; `tokenId` and `liquidity` are the raw position-dictionary values). -/
def decrease_inv (tokenId liquidity : Val) : Invocation :=
  ⟨NM_POSITION_MANAGER, "decreaseLiquidity",
    [("tokenId", tokenId), ("liquidity", liquidity),
     ("amount0Min", Val.s "0"), ("amount1Min", Val.s "0"),
     ("deadline", Val.i 9999999999)]⟩

/-- The `collect` invocation of the chatbot variant. -/
def collect_inv (tokenId : Val) (address amount0Desired amount1Desired : String) : Invocation :=
  ⟨NM_POSITION_MANAGER, "collect",
    [("tokenId", tokenId), ("recipient", Val.s address),
     ("amount0Max", Val.s amount0Desired), ("amount1Max", Val.s amount1Desired)]⟩

/-- The `burn` invocation of the chatbot variant. -/
def burn_inv (tokenId : Val) : Invocation :=
  ⟨NM_POSITION_MANAGER, "burn", [("tokenId", tokenId)]⟩

/-- Shallow embedding of `rebalance_liquidity` from
`examples/cdp-langchain-chatbot/chatbot.py`. -/
def rebalance_liquidity (wallet : Wallet) (tick_a tick_b : Int)
    (pool token0 token1 amount0Desired amount1Desired : String) : Exec :=
  let position := wallet.get_liquidity_position pool
  if posFalsy position then
    finish (runCalls wallet.env 0 []
        ((if wallet.has_token_approval token0 NM_POSITION_MANAGER then []
          else [approve_inv token0 amount0Desired]) ++
         (if wallet.has_token_approval token1 NM_POSITION_MANAGER then []
          else [approve_inv token1 amount1Desired]) ++
         [mint_inv wallet.address tick_a tick_b token0 token1 amount0Desired amount1Desired]))
      (fun d => createdMsg (dGet d "tokenId" "unknown") pool tick_a tick_b)
  else
    let pos := position.getD []
    let tokenId := pget pos "tokenId"
    let liquidity := pget pos "liquidity"
    if !tokenId.truthy || liquidity.eqStr "0" then
      { events := [], result := Except.ok invalidPositionMsg }
    else
      finish (runCalls wallet.env 0 []
          [decrease_inv tokenId liquidity,
           collect_inv tokenId wallet.address amount0Desired amount1Desired,
           burn_inv tokenId,
           mint_inv wallet.address tick_a tick_b token0 token1 amount0Desired amount1Desired])
        (fun d => rebalancedMsg tokenId.pyStr (dGet d "tokenId" "unknown") pool tick_a tick_b)

end Chatbot

/-! ## Further definitions used by the specification theorems -/

/-- Look up a key in an argument dictionary. -/
def argLookup (a : Args) (k : String) : Option Val :=
  (a.find? (fun p => p.1 == k)).map Prod.snd

/-- A trace is well sequenced when every issued invocation is waited on
before any further event, with at most a trailing unconfirmed invocation. -/
def wellSequenced : List Event → Bool
  | [] => true
  | Event.invoked _ :: [] => true
  | Event.invoked i :: Event.waited j :: rest => if i = j then wellSequenced rest else false
  | _ => false

/-- An environment in which the first `j` calls succeed and the `j`-th
call's `wait()` raises `e`. -/
def failEnvW (res : Nat → Dict) (j : Nat) (e : String) : Nat → CallOutcome :=
  fun k => if k < j then CallOutcome.ok (res k) else CallOutcome.waitRaises e

/-- An environment in which the first `j` calls succeed and the `j`-th
`invoke_contract` itself raises `e`. -/
def failEnvI (res : Nat → Dict) (j : Nat) (e : String) : Nat → CallOutcome :=
  fun k => if k < j then CallOutcome.ok (res k) else CallOutcome.invokeRaises e

/-- The fixed fee tier and deadline sentinel forwarded by an invocation:
every `mint` carries `fee = 3000` and `deadline = 9999999999`, and every
`decreaseLiquidity` carries `deadline = 9999999999`. -/
def feeDeadlineFixed (inv : Invocation) : Prop :=
  (inv.method = "mint" →
      argLookup inv.args "fee" = some (Val.i 3000)
      ∧ argLookup inv.args "deadline" = some (Val.i 9999999999))
  ∧ (inv.method = "decreaseLiquidity" →
      argLookup inv.args "deadline" = some (Val.i 9999999999))

/-- No slippage protection: every `mint` and every `decreaseLiquidity`
carries `amount0Min = "0"` and `amount1Min = "0"`. -/
def slippageHardcodedZero (inv : Invocation) : Prop :=
  inv.method = "mint" ∨ inv.method = "decreaseLiquidity" →
    argLookup inv.args "amount0Min" = some (Val.s "0")
    ∧ argLookup inv.args "amount1Min" = some (Val.s "0")

/-- Every `collect` caps the collectable fees by the caller-supplied
desired deposit amounts. -/
def collectCappedByDesired (amount0Desired amount1Desired : String) (inv : Invocation) : Prop :=
  inv.method = "collect" →
    argLookup inv.args "amount0Max" = some (Val.s amount0Desired)
    ∧ argLookup inv.args "amount1Max" = some (Val.s amount1Desired)

/-- A concrete wallet whose calls all succeed, used to instantiate the
theorems at concrete inputs. -/
def wEx : Wallet :=
  ⟨"0xW", okEnv (fun _ => [("tokenId", "5678")]), fun _ => Option.none, fun _ _ => true⟩

/-- A concrete wallet reporting an existing position whose liquidity is the
integer `0` (not the string `"0"`). -/
def wExIntZero : Wallet :=
  ⟨"0xW", okEnv (fun _ => [("tokenId", "5678")]),
   fun _ => some [("tokenId", Val.s "1234"), ("liquidity", Val.i 0)], fun _ _ => true⟩

/-! ## Helper lemmas -/

@[simp] theorem invocationsOf_nil : invocationsOf [] = [] := rfl

@[simp] theorem invocationsOf_invoked_cons (i : Invocation) (r : List Event) :
    invocationsOf (Event.invoked i :: r) = i :: invocationsOf r := rfl

@[simp] theorem invocationsOf_waited_cons (i : Invocation) (r : List Event) :
    invocationsOf (Event.waited i :: r) = invocationsOf r := rfl

/-- Every invocation issued by `runCalls` is one of the planned invocations. -/
theorem mem_plan_of_mem_invocations (env : Nat → CallOutcome) :
    ∀ (plan : List Invocation) (k : Nat) (last : Dict) (inv : Invocation),
      inv ∈ invocationsOf (runCalls env k last plan).1 → inv ∈ plan := by
  intro plan
  induction plan with
  | nil =>
    intro k last inv h
    simp [runCalls] at h
  | cons a rest ih =>
    intro k last inv h
    rw [runCalls] at h
    rcases henv : env k with e | e | d <;> rw [henv] at h
    · simp at h
    · simp at h
      simp [h]
    · simp at h
      rcases h with h | h
      · simp [h]
      · exact List.mem_cons_of_mem a (ih (k + 1) d inv h)

/-- Every trace produced by `runCalls` is well sequenced. -/
theorem wellSequenced_runCalls (env : Nat → CallOutcome) :
    ∀ (plan : List Invocation) (k : Nat) (last : Dict),
      wellSequenced (runCalls env k last plan).1 = true := by
  intro plan
  induction plan with
  | nil => intro k last; simp [runCalls, wellSequenced]
  | cons a rest ih =>
    intro k last
    rw [runCalls]
    rcases henv : env k with e | e | d
    · simp [wellSequenced]
    · simp [wellSequenced]
    · simp only
      have := ih (k + 1) d
      simp [wellSequenced, this]

theorem core_invocations_cases (w : Wallet) (tick_a tick_b : Int)
    (pool token0 token1 a0 a1 : String) (ep : Bool) (etid eliq : Option String)
    (inv : Invocation)
    (hmem : inv ∈ invocationsOf (Core.rebalance_liquidity w tick_a tick_b pool token0
      token1 a0 a1 ep etid eliq).events) :
    inv = Core.mint_inv w.address tick_a tick_b pool token0 token1 a0 a1
    ∨ inv = Core.decrease_inv (etid.getD "") (eliq.getD "") pool
    ∨ inv = Core.collect_inv (etid.getD "") w.address a0 a1
    ∨ inv = Core.burn_inv (etid.getD "") pool := by
  cases ep with
  | false =>
    simp only [Core.rebalance_liquidity, if_pos rfl] at hmem
    have h := mem_plan_of_mem_invocations w.env _ 0 [] inv hmem
    simp at h
    exact Or.inl h
  | true =>
    simp only [Core.rebalance_liquidity] at hmem
    rw [if_neg (by decide)] at hmem
    by_cases h1 : pyStrOptFalsy etid = true
    · rw [if_pos h1] at hmem
      simp at hmem
    · rw [if_neg h1] at hmem
      rcases h2 : pyInt eliq with e | n <;> rw [h2] at hmem <;> dsimp only at hmem
      · simp at hmem
      · by_cases h3 : n = 0
        · rw [if_pos h3] at hmem
          simp at hmem
        · rw [if_neg h3] at hmem
          have h := mem_plan_of_mem_invocations w.env _ 0 [] inv hmem
          simp at h
          tauto

theorem chatbot_invocations_cases (w : Wallet) (tick_a tick_b : Int)
    (pool token0 token1 a0 a1 : String) (inv : Invocation)
    (hmem : inv ∈ invocationsOf (Chatbot.rebalance_liquidity w tick_a tick_b pool token0
      token1 a0 a1).events) :
    inv = Chatbot.approve_inv token0 a0
    ∨ inv = Chatbot.approve_inv token1 a1
    ∨ inv = Chatbot.mint_inv w.address tick_a tick_b token0 token1 a0 a1
    ∨ inv = Chatbot.decrease_inv (pget ((w.get_liquidity_position pool).getD []) "tokenId")
        (pget ((w.get_liquidity_position pool).getD []) "liquidity")
    ∨ inv = Chatbot.collect_inv (pget ((w.get_liquidity_position pool).getD []) "tokenId")
        w.address a0 a1
    ∨ inv = Chatbot.burn_inv (pget ((w.get_liquidity_position pool).getD []) "tokenId") := by
  simp only [Chatbot.rebalance_liquidity] at hmem
  split at hmem
  · have h := mem_plan_of_mem_invocations w.env _ 0 [] inv hmem
    by_cases ha0 : w.has_token_approval token0 Chatbot.NM_POSITION_MANAGER = true <;>
      by_cases ha1 : w.has_token_approval token1 Chatbot.NM_POSITION_MANAGER = true <;>
        simp [ha0, ha1] at h <;> tauto
  · split at hmem
    · simp at hmem
    · have h := mem_plan_of_mem_invocations w.env _ 0 [] inv hmem
      simp at h
      tauto

theorem feeDeadlineFixed_core_mint (address : String) (ta tb : Int)
    (pool t0 t1 a0 a1 : String) :
    feeDeadlineFixed (Core.mint_inv address ta tb pool t0 t1 a0 a1) := by
  refine ⟨fun _ => ⟨rfl, rfl⟩, fun h => ?_⟩
  simp [Core.mint_inv] at h

theorem feeDeadlineFixed_core_decrease (tokenId liquidity pool : String) :
    feeDeadlineFixed (Core.decrease_inv tokenId liquidity pool) := by
  refine ⟨fun h => ?_, fun _ => rfl⟩
  simp [Core.decrease_inv] at h

theorem feeDeadlineFixed_core_collect (tokenId address a0 a1 : String) :
    feeDeadlineFixed (Core.collect_inv tokenId address a0 a1) := by
  refine ⟨fun h => ?_, fun h => ?_⟩ <;> simp [Core.collect_inv] at h

theorem feeDeadlineFixed_core_burn (tokenId pool : String) :
    feeDeadlineFixed (Core.burn_inv tokenId pool) := by
  refine ⟨fun h => ?_, fun h => ?_⟩ <;> simp [Core.burn_inv] at h

theorem slippage_core_mint (address : String) (ta tb : Int) (pool t0 t1 a0 a1 : String) :
    slippageHardcodedZero (Core.mint_inv address ta tb pool t0 t1 a0 a1) :=
  fun _ => ⟨rfl, rfl⟩

theorem slippage_core_decrease (tokenId liquidity pool : String) :
    slippageHardcodedZero (Core.decrease_inv tokenId liquidity pool) :=
  fun _ => ⟨rfl, rfl⟩

theorem slippage_core_collect (tokenId address a0 a1 : String) :
    slippageHardcodedZero (Core.collect_inv tokenId address a0 a1) := by
  intro h
  simp [Core.collect_inv] at h

theorem slippage_core_burn (tokenId pool : String) :
    slippageHardcodedZero (Core.burn_inv tokenId pool) := by
  intro h
  simp [Core.burn_inv] at h

theorem slippage_bot_mint (address : String) (ta tb : Int) (t0 t1 a0 a1 : String) :
    slippageHardcodedZero (Chatbot.mint_inv address ta tb t0 t1 a0 a1) :=
  fun _ => ⟨rfl, rfl⟩

theorem slippage_bot_decrease (tokenId liquidity : Val) :
    slippageHardcodedZero (Chatbot.decrease_inv tokenId liquidity) :=
  fun _ => ⟨rfl, rfl⟩

theorem slippage_bot_collect (tokenId : Val) (address a0 a1 : String) :
    slippageHardcodedZero (Chatbot.collect_inv tokenId address a0 a1) := by
  intro h
  simp [Chatbot.collect_inv] at h

theorem slippage_bot_burn (tokenId : Val) :
    slippageHardcodedZero (Chatbot.burn_inv tokenId) := by
  intro h
  simp [Chatbot.burn_inv] at h

theorem slippage_bot_approve (token amount : String) :
    slippageHardcodedZero (Chatbot.approve_inv token amount) := by
  intro h
  simp [Chatbot.approve_inv] at h

theorem collect_core (tokenId address a0 a1 : String) :
    collectCappedByDesired a0 a1 (Core.collect_inv tokenId address a0 a1) :=
  fun _ => ⟨rfl, rfl⟩

theorem collect_bot (tokenId : Val) (address a0 a1 : String) :
    collectCappedByDesired a0 a1 (Chatbot.collect_inv tokenId address a0 a1) :=
  fun _ => ⟨rfl, rfl⟩


/-- C1: the branch taken is determined solely by the existing-position
indication, and the non-approval contract invocations are exactly one
`mint` on the create branch and exactly the four calls `decreaseLiquidity`,
`collect`, `burn`, `mint` on the rebalance branch once validation passes,
in both implementations; the chatbot create branch may additionally issue
one `approve` per missing token approval. -/
theorem C1_branch_selection_and_call_count
    (addr pool token0 token1 a0 a1 : String) (tick_a tick_b : Int)
    (res : Nat → Dict) (gp : String → Option PosDict) (hap : String → String → Bool)
    (etid eliq : Option String) (n : Int)
    (h1 : pyStrOptFalsy etid = false) (h2 : pyInt eliq = Except.ok n) (h3 : n ≠ 0)
    (posd : PosDict) (hp1 : posd.isEmpty = false)
    (hp2 : (pget posd "tokenId").truthy = true)
    (hp3 : (pget posd "liquidity").eqStr "0" = false) :
    methodsOf (Core.rebalance_liquidity ⟨addr, okEnv res, gp, hap⟩ tick_a tick_b pool token0
        token1 a0 a1 false etid eliq).events = ["mint"]
    ∧ methodsOf (Core.rebalance_liquidity ⟨addr, okEnv res, gp, hap⟩ tick_a tick_b pool token0
        token1 a0 a1 true etid eliq).events = ["decreaseLiquidity", "collect", "burn", "mint"]
    ∧ methodsOf (Chatbot.rebalance_liquidity ⟨addr, okEnv res, fun _ => Option.none, hap⟩
        tick_a tick_b pool token0 token1 a0 a1).events
        = ((if hap token0 Chatbot.NM_POSITION_MANAGER then [] else ["approve"]) ++
           (if hap token1 Chatbot.NM_POSITION_MANAGER then [] else ["approve"]) ++ ["mint"])
    ∧ (methodsOf (Chatbot.rebalance_liquidity ⟨addr, okEnv res, fun _ => Option.none, hap⟩
        tick_a tick_b pool token0 token1 a0 a1).events).filter (fun m => !(m == "approve"))
        = ["mint"]
    ∧ methodsOf (Chatbot.rebalance_liquidity ⟨addr, okEnv res, fun _ => some posd, hap⟩
        tick_a tick_b pool token0 token1 a0 a1).events
        = ["decreaseLiquidity", "collect", "burn", "mint"] := by
  refine ⟨rfl, ?_, ?_, ?_, ?_⟩
  · simp only [Core.rebalance_liquidity, h1, h2]
    simp only [if_neg h3]
    simp [methodsOf, runCalls, okEnv, finish, Core.decrease_inv, Core.collect_inv,
      Core.burn_inv, Core.mint_inv]
  · simp only [Chatbot.rebalance_liquidity]
    by_cases ha0 : hap token0 Chatbot.NM_POSITION_MANAGER = true <;>
      by_cases ha1 : hap token1 Chatbot.NM_POSITION_MANAGER = true <;>
        simp [ha0, ha1, methodsOf, runCalls, okEnv, finish, Chatbot.posFalsy,
          Chatbot.approve_inv, Chatbot.mint_inv]
  · simp only [Chatbot.rebalance_liquidity]
    by_cases ha0 : hap token0 Chatbot.NM_POSITION_MANAGER = true <;>
      by_cases ha1 : hap token1 Chatbot.NM_POSITION_MANAGER = true <;>
        simp [ha0, ha1, methodsOf, runCalls, okEnv, finish, Chatbot.posFalsy,
          Chatbot.approve_inv, Chatbot.mint_inv]
  · simp [Chatbot.rebalance_liquidity, Chatbot.posFalsy, hp1, hp2, hp3, methodsOf,
      runCalls, okEnv, finish, Chatbot.decrease_inv, Chatbot.collect_inv,
      Chatbot.burn_inv, Chatbot.mint_inv]

/-- Witness for C1 at concrete inputs. -/
theorem C1_witness :
    methodsOf (Core.rebalance_liquidity wEx 100 200 "0xPool" "0xT0" "0xT1" "10" "20" false
        (some "1234") (some "1000")).events = ["mint"]
    ∧ methodsOf (Core.rebalance_liquidity wEx 100 200 "0xPool" "0xT0" "0xT1" "10" "20" true
        (some "1234") (some "1000")).events = ["decreaseLiquidity", "collect", "burn", "mint"]
    ∧ methodsOf (Chatbot.rebalance_liquidity wEx 100 200 "0xPool" "0xT0" "0xT1" "10"
        "20").events = ["mint"]
    ∧ (methodsOf (Chatbot.rebalance_liquidity wEx 100 200 "0xPool" "0xT0" "0xT1" "10"
        "20").events).filter (fun m => !(m == "approve")) = ["mint"]
    ∧ methodsOf (Chatbot.rebalance_liquidity
        ⟨"0xW", okEnv (fun _ => [("tokenId", "5678")]),
         fun _ => some [("tokenId", Val.s "1234"), ("liquidity", Val.s "1000")],
         fun _ _ => true⟩ 100 200 "0xPool" "0xT0" "0xT1" "10" "20").events
        = ["decreaseLiquidity", "collect", "burn", "mint"] :=
  C1_branch_selection_and_call_count "0xW" "0xPool" "0xT0" "0xT1" "10" "20" 100 200
    (fun _ => [("tokenId", "5678")]) (fun _ => Option.none) (fun _ _ => true)
    (some "1234") (some "1000") 1000 rfl rfl (by decide)
    [("tokenId", Val.s "1234"), ("liquidity", Val.s "1000")] rfl rfl rfl


/-- C3: on the rebalance branch, once validation passes and every call
succeeds, the contract methods are invoked in exactly the order
`decreaseLiquidity`, `collect`, `burn`, `mint`, and the returned status
string reports both the burned (old) token identifier and the newly minted
token identifier, in both implementations. -/
theorem C3_rebalance_order_and_identifiers
    (addr pool token0 token1 a0 a1 : String) (tick_a tick_b : Int)
    (res : Nat → Dict) (gp : String → Option PosDict) (hap : String → String → Bool)
    (etid eliq : Option String) (n : Int)
    (h1 : pyStrOptFalsy etid = false) (h2 : pyInt eliq = Except.ok n) (h3 : n ≠ 0)
    (posd : PosDict) (hp1 : posd.isEmpty = false)
    (hp2 : (pget posd "tokenId").truthy = true)
    (hp3 : (pget posd "liquidity").eqStr "0" = false) :
    methodsOf (Core.rebalance_liquidity ⟨addr, okEnv res, gp, hap⟩ tick_a tick_b pool token0
        token1 a0 a1 true etid eliq).events = ["decreaseLiquidity", "collect", "burn", "mint"]
    ∧ (Core.rebalance_liquidity ⟨addr, okEnv res, gp, hap⟩ tick_a tick_b pool token0 token1
        a0 a1 true etid eliq).result
        = Except.ok (rebalancedMsg (etid.getD "") (dGet (res 3) "tokenId" "unknown") pool
            tick_a tick_b)
    ∧ methodsOf (Chatbot.rebalance_liquidity ⟨addr, okEnv res, fun _ => some posd, hap⟩ tick_a
        tick_b pool token0 token1 a0 a1).events = ["decreaseLiquidity", "collect", "burn", "mint"]
    ∧ (Chatbot.rebalance_liquidity ⟨addr, okEnv res, fun _ => some posd, hap⟩ tick_a tick_b pool
        token0 token1 a0 a1).result
        = Except.ok (rebalancedMsg (pget posd "tokenId").pyStr (dGet (res 3) "tokenId" "unknown")
            pool tick_a tick_b) := by
  refine ⟨?_, ?_, ?_, ?_⟩
  · simp only [Core.rebalance_liquidity, h1, h2]
    simp only [if_neg h3]
    simp [methodsOf, runCalls, okEnv, finish, Core.decrease_inv, Core.collect_inv,
      Core.burn_inv, Core.mint_inv]
  · simp only [Core.rebalance_liquidity, h1, h2]
    simp only [if_neg h3]
    simp [runCalls, okEnv, finish]
  · simp [Chatbot.rebalance_liquidity, Chatbot.posFalsy, hp1, hp2, hp3, methodsOf,
      runCalls, okEnv, finish, Chatbot.decrease_inv, Chatbot.collect_inv,
      Chatbot.burn_inv, Chatbot.mint_inv]
  · simp [Chatbot.rebalance_liquidity, Chatbot.posFalsy, hp1, hp2, hp3,
      runCalls, okEnv, finish]

/-- Witness for C3 at concrete inputs. -/
theorem C3_witness :
    methodsOf (Core.rebalance_liquidity wEx 100 200 "0xPool" "0xT0" "0xT1" "10" "20" true
        (some "1234") (some "1000")).events = ["decreaseLiquidity", "collect", "burn", "mint"]
    ∧ (Core.rebalance_liquidity wEx 100 200 "0xPool" "0xT0" "0xT1" "10" "20" true
        (some "1234") (some "1000")).result
        = Except.ok (rebalancedMsg "1234" "5678" "0xPool" 100 200)
    ∧ methodsOf (Chatbot.rebalance_liquidity
        ⟨"0xW", okEnv (fun _ => [("tokenId", "5678")]),
         fun _ => some [("tokenId", Val.s "1234"), ("liquidity", Val.s "1000")],
         fun _ _ => true⟩ 100 200 "0xPool" "0xT0" "0xT1" "10" "20").events
        = ["decreaseLiquidity", "collect", "burn", "mint"]
    ∧ (Chatbot.rebalance_liquidity
        ⟨"0xW", okEnv (fun _ => [("tokenId", "5678")]),
         fun _ => some [("tokenId", Val.s "1234"), ("liquidity", Val.s "1000")],
         fun _ _ => true⟩ 100 200 "0xPool" "0xT0" "0xT1" "10" "20").result
        = Except.ok (rebalancedMsg "1234" "5678" "0xPool" 100 200) :=
  C3_rebalance_order_and_identifiers "0xW" "0xPool" "0xT0" "0xT1" "10" "20" 100 200
    (fun _ => [("tokenId", "5678")]) (fun _ => Option.none) (fun _ _ => true)
    (some "1234") (some "1000") 1000 rfl rfl (by decide)
    [("tokenId", Val.s "1234"), ("liquidity", Val.s "1000")] rfl rfl rfl


/-- C4: if the j-th contract call of the rebalance sequence raises (either
at `invoke_contract` or at its `wait`), the exception propagates unmodified
to the caller, no further invocation is issued (no retry and no
compensating call), and in particular a failure before the final `mint`
ends the run with no `mint` ever issued. -/
theorem C4_exception_propagation
    (addr pool token0 token1 a0 a1 : String) (tick_a tick_b : Int)
    (res : Nat → Dict) (gp : String → Option PosDict) (hap : String → String → Bool)
    (etid eliq : Option String) (n : Int) (e : String)
    (h1 : pyStrOptFalsy etid = false) (h2 : pyInt eliq = Except.ok n) (h3 : n ≠ 0)
    (j : Nat) (hj : j < 4) :
    ((Core.rebalance_liquidity ⟨addr, failEnvW res j e, gp, hap⟩ tick_a tick_b pool token0
        token1 a0 a1 true etid eliq).result = Except.error e
     ∧ methodsOf (Core.rebalance_liquidity ⟨addr, failEnvW res j e, gp, hap⟩ tick_a tick_b pool
        token0 token1 a0 a1 true etid eliq).events
        = List.take (j + 1) ["decreaseLiquidity", "collect", "burn", "mint"]
     ∧ (j < 3 → "mint" ∉ methodsOf (Core.rebalance_liquidity ⟨addr, failEnvW res j e, gp, hap⟩
          tick_a tick_b pool token0 token1 a0 a1 true etid eliq).events))
    ∧ ((Core.rebalance_liquidity ⟨addr, failEnvI res j e, gp, hap⟩ tick_a tick_b pool token0
        token1 a0 a1 true etid eliq).result = Except.error e
     ∧ methodsOf (Core.rebalance_liquidity ⟨addr, failEnvI res j e, gp, hap⟩ tick_a tick_b pool
        token0 token1 a0 a1 true etid eliq).events
        = List.take j ["decreaseLiquidity", "collect", "burn", "mint"]
     ∧ "mint" ∉ methodsOf (Core.rebalance_liquidity ⟨addr, failEnvI res j e, gp, hap⟩ tick_a
          tick_b pool token0 token1 a0 a1 true etid eliq).events) := by
  interval_cases j <;>
    (refine ⟨⟨?_, ?_, ?_⟩, ?_, ?_, ?_⟩ <;>
      simp [Core.rebalance_liquidity, h1, h2, if_neg h3, failEnvW, failEnvI, runCalls,
        finish, methodsOf, Core.decrease_inv, Core.collect_inv, Core.burn_inv, Core.mint_inv])

/-- Witness for C4 at concrete inputs, failing at the second call. -/
theorem C4_witness :
    ((Core.rebalance_liquidity
        ⟨"0xW", failEnvW (fun _ => [("tokenId", "5678")]) 1 "boom",
         fun _ => Option.none, fun _ _ => true⟩ 100 200 "0xPool" "0xT0" "0xT1" "10" "20" true
        (some "1234") (some "1000")).result = Except.error "boom"
     ∧ methodsOf (Core.rebalance_liquidity
        ⟨"0xW", failEnvW (fun _ => [("tokenId", "5678")]) 1 "boom",
         fun _ => Option.none, fun _ _ => true⟩ 100 200 "0xPool" "0xT0" "0xT1" "10" "20" true
        (some "1234") (some "1000")).events
        = List.take 2 ["decreaseLiquidity", "collect", "burn", "mint"]
     ∧ (1 < 3 → "mint" ∉ methodsOf (Core.rebalance_liquidity
        ⟨"0xW", failEnvW (fun _ => [("tokenId", "5678")]) 1 "boom",
         fun _ => Option.none, fun _ _ => true⟩ 100 200 "0xPool" "0xT0" "0xT1" "10" "20" true
        (some "1234") (some "1000")).events))
    ∧ ((Core.rebalance_liquidity
        ⟨"0xW", failEnvI (fun _ => [("tokenId", "5678")]) 1 "boom",
         fun _ => Option.none, fun _ _ => true⟩ 100 200 "0xPool" "0xT0" "0xT1" "10" "20" true
        (some "1234") (some "1000")).result = Except.error "boom"
     ∧ methodsOf (Core.rebalance_liquidity
        ⟨"0xW", failEnvI (fun _ => [("tokenId", "5678")]) 1 "boom",
         fun _ => Option.none, fun _ _ => true⟩ 100 200 "0xPool" "0xT0" "0xT1" "10" "20" true
        (some "1234") (some "1000")).events
        = List.take 1 ["decreaseLiquidity", "collect", "burn", "mint"]
     ∧ "mint" ∉ methodsOf (Core.rebalance_liquidity
        ⟨"0xW", failEnvI (fun _ => [("tokenId", "5678")]) 1 "boom",
         fun _ => Option.none, fun _ _ => true⟩ 100 200 "0xPool" "0xT0" "0xT1" "10" "20" true
        (some "1234") (some "1000")).events) :=
  C4_exception_propagation "0xW" "0xPool" "0xT0" "0xT1" "10" "20" 100 200
    (fun _ => [("tokenId", "5678")]) (fun _ => Option.none) (fun _ _ => true)
    (some "1234") (some "1000") 1000 "boom" rfl rfl (by decide) 1 (by decide)


/-- C5: in every run of the core action, whatever the inputs and the
external outcomes, every `mint` invocation forwards `fee = 3000` and
`deadline = 9999999999`, and every `decreaseLiquidity` invocation forwards
`deadline = 9999999999`; the constants never depend on the caller-provided
parameters. -/
theorem C5_fee_and_deadline_fixed (w : Wallet) (tick_a tick_b : Int)
    (pool token0 token1 a0 a1 : String) (ep : Bool) (etid eliq : Option String)
    (inv : Invocation)
    (hmem : inv ∈ invocationsOf (Core.rebalance_liquidity w tick_a tick_b pool token0 token1
      a0 a1 ep etid eliq).events) :
    feeDeadlineFixed inv := by
  rcases core_invocations_cases w tick_a tick_b pool token0 token1 a0 a1 ep etid eliq inv hmem
    with h | h | h | h <;> subst h
  · exact feeDeadlineFixed_core_mint _ _ _ _ _ _ _ _
  · exact feeDeadlineFixed_core_decrease _ _ _
  · exact feeDeadlineFixed_core_collect _ _ _ _
  · exact feeDeadlineFixed_core_burn _ _

/-- Witness for C5: the mint invocation of a concrete successful create
run carries the fixed fee and deadline. -/
theorem C5_witness :
    feeDeadlineFixed (Core.mint_inv "0xW" 100 200 "0xPool" "0xT0" "0xT1" "10" "20") :=
  C5_fee_and_deadline_fixed wEx 100 200 "0xPool" "0xT0" "0xT1" "10" "20" false
    (some "1234") (some "1000")
    (Core.mint_inv "0xW" 100 200 "0xPool" "0xT0" "0xT1" "10" "20") (by decide)

/-- C6: in every run of either implementation, every `mint` and every
`decreaseLiquidity` invocation forwards `amount0Min = "0"` and
`amount1Min = "0"`, regardless of the desired amounts supplied by the
caller. -/
theorem C6_no_slippage_protection (w : Wallet) (tick_a tick_b : Int)
    (pool token0 token1 a0 a1 : String) (ep : Bool) (etid eliq : Option String)
    (inv : Invocation) :
    (inv ∈ invocationsOf (Core.rebalance_liquidity w tick_a tick_b pool token0 token1 a0 a1
        ep etid eliq).events → slippageHardcodedZero inv)
    ∧ (inv ∈ invocationsOf (Chatbot.rebalance_liquidity w tick_a tick_b pool token0 token1
        a0 a1).events → slippageHardcodedZero inv) := by
  constructor
  · intro hmem
    rcases core_invocations_cases w tick_a tick_b pool token0 token1 a0 a1 ep etid eliq inv
      hmem with h | h | h | h <;> subst h
    · exact slippage_core_mint _ _ _ _ _ _ _ _
    · exact slippage_core_decrease _ _ _
    · exact slippage_core_collect _ _ _ _
    · exact slippage_core_burn _ _
  · intro hmem
    rcases chatbot_invocations_cases w tick_a tick_b pool token0 token1 a0 a1 inv hmem
      with h | h | h | h | h | h <;> subst h
    · exact slippage_bot_approve _ _
    · exact slippage_bot_approve _ _
    · exact slippage_bot_mint _ _ _ _ _ _ _
    · exact slippage_bot_decrease _ _
    · exact slippage_bot_collect _ _ _ _
    · exact slippage_bot_burn _

/-- Witness for C6: concrete mint and decreaseLiquidity invocations of
successful runs of the two implementations carry the hardcoded "0"
minimums. -/
theorem C6_witness :
    slippageHardcodedZero (Core.mint_inv "0xW" 100 200 "0xPool" "0xT0" "0xT1" "10" "20")
    ∧ slippageHardcodedZero (Chatbot.decrease_inv (Val.s "1234") (Val.s "1000")) :=
  ⟨(C6_no_slippage_protection wEx 100 200 "0xPool" "0xT0" "0xT1" "10" "20" false
      (some "1234") (some "1000")
      (Core.mint_inv "0xW" 100 200 "0xPool" "0xT0" "0xT1" "10" "20")).1 (by decide),
   (C6_no_slippage_protection
      ⟨"0xW", okEnv (fun _ => [("tokenId", "5678")]),
       fun _ => some [("tokenId", Val.s "1234"), ("liquidity", Val.s "1000")],
       fun _ _ => true⟩ 100 200 "0xPool" "0xT0" "0xT1" "10" "20" false
      (some "1234") (some "1000")
      (Chatbot.decrease_inv (Val.s "1234") (Val.s "1000"))).2 (by decide)⟩


/-- C7: on every successful core run, the `tokenId` value of the final
mint result is propagated verbatim into the returned status string
(defaulting to the literal `"unknown"` when the result has no `tokenId`
key), together with the caller-supplied pool address and tick range. -/
theorem C7_token_id_propagation
    (addr pool token0 token1 a0 a1 : String) (tick_a tick_b : Int)
    (res : Nat → Dict) (gp : String → Option PosDict) (hap : String → String → Bool)
    (etid eliq : Option String) (n : Int)
    (h1 : pyStrOptFalsy etid = false) (h2 : pyInt eliq = Except.ok n) (h3 : n ≠ 0) :
    (Core.rebalance_liquidity ⟨addr, okEnv res, gp, hap⟩ tick_a tick_b pool token0 token1
        a0 a1 false etid eliq).result
      = Except.ok (createdMsg (dGet (res 0) "tokenId" "unknown") pool tick_a tick_b)
    ∧ (Core.rebalance_liquidity ⟨addr, okEnv res, gp, hap⟩ tick_a tick_b pool token0 token1
        a0 a1 true etid eliq).result
      = Except.ok (rebalancedMsg (etid.getD "") (dGet (res 3) "tokenId" "unknown") pool
          tick_a tick_b)
    ∧ (∀ d : Dict, d.find? (fun p => p.1 == "tokenId") = Option.none →
        dGet d "tokenId" "unknown" = "unknown") := by
  refine ⟨rfl, ?_, ?_⟩
  · simp only [Core.rebalance_liquidity, h1, h2]
    simp only [if_neg h3]
    simp [runCalls, okEnv, finish]
  · intro d hd
    simp [dGet, hd]

/-- Witness for C7: a mint result without a `tokenId` key reports
`unknown`, and a rebalance run reports the identifier returned by the
final mint. -/
theorem C7_witness :
    (Core.rebalance_liquidity
        ⟨"0xW", okEnv (fun _ => [("liquidity", "7")]), fun _ => Option.none, fun _ _ => true⟩
        100 200 "0xPool" "0xT0" "0xT1" "10" "20" false (some "1234") (some "1000")).result
      = Except.ok (createdMsg "unknown" "0xPool" 100 200)
    ∧ (Core.rebalance_liquidity wEx 100 200 "0xPool" "0xT0" "0xT1" "10" "20" true
        (some "1234") (some "1000")).result
      = Except.ok (rebalancedMsg "1234" "5678" "0xPool" 100 200)
    ∧ dGet [("liquidity", "7")] "tokenId" "unknown" = "unknown" :=
  ⟨(C7_token_id_propagation "0xW" "0xPool" "0xT0" "0xT1" "10" "20" 100 200
      (fun _ => [("liquidity", "7")]) (fun _ => Option.none) (fun _ _ => true)
      (some "1234") (some "1000") 1000 rfl rfl (by decide)).1,
   (C7_token_id_propagation "0xW" "0xPool" "0xT0" "0xT1" "10" "20" 100 200
      (fun _ => [("tokenId", "5678")]) (fun _ => Option.none) (fun _ _ => true)
      (some "1234") (some "1000") 1000 rfl rfl (by decide)).2.1,
   (C7_token_id_propagation "0xW" "0xPool" "0xT0" "0xT1" "10" "20" 100 200
      (fun _ => [("liquidity", "7")]) (fun _ => Option.none) (fun _ _ => true)
      (some "1234") (some "1000") 1000 rfl rfl (by decide)).2.2 _ rfl⟩

/-- C8: on the rebalance branch the trace is well sequenced for every
environment (each invocation is waited on before the next one is issued,
with at most a trailing unconfirmed invocation after a raised wait), and
under an all-success environment the trace is exactly the alternating
invoke/wait sequence of the four calls. -/
theorem C8_wait_blocks_before_next_invoke (w : Wallet)
    (addr pool token0 token1 a0 a1 : String) (tick_a tick_b : Int)
    (res : Nat → Dict) (gp : String → Option PosDict) (hap : String → String → Bool)
    (etid eliq : Option String) (n : Int)
    (h1 : pyStrOptFalsy etid = false) (h2 : pyInt eliq = Except.ok n) (h3 : n ≠ 0) :
    wellSequenced (Core.rebalance_liquidity w tick_a tick_b pool token0 token1 a0 a1 true
      etid eliq).events = true
    ∧ (Core.rebalance_liquidity ⟨addr, okEnv res, gp, hap⟩ tick_a tick_b pool token0 token1
        a0 a1 true etid eliq).events
      = [Event.invoked (Core.decrease_inv (etid.getD "") (eliq.getD "") pool),
         Event.waited (Core.decrease_inv (etid.getD "") (eliq.getD "") pool),
         Event.invoked (Core.collect_inv (etid.getD "") addr a0 a1),
         Event.waited (Core.collect_inv (etid.getD "") addr a0 a1),
         Event.invoked (Core.burn_inv (etid.getD "") pool),
         Event.waited (Core.burn_inv (etid.getD "") pool),
         Event.invoked (Core.mint_inv addr tick_a tick_b pool token0 token1 a0 a1),
         Event.waited (Core.mint_inv addr tick_a tick_b pool token0 token1 a0 a1)] := by
  constructor
  · simp only [Core.rebalance_liquidity, h1, h2]
    simp only [if_neg h3]
    exact wellSequenced_runCalls w.env _ 0 []
  · simp only [Core.rebalance_liquidity, h1, h2]
    simp only [if_neg h3]
    simp [runCalls, okEnv, finish]

/-- Witness for C8 at concrete inputs. -/
theorem C8_witness :
    wellSequenced (Core.rebalance_liquidity wEx 100 200 "0xPool" "0xT0" "0xT1" "10" "20" true
      (some "1234") (some "1000")).events = true
    ∧ (Core.rebalance_liquidity wEx 100 200 "0xPool" "0xT0" "0xT1" "10" "20" true
        (some "1234") (some "1000")).events
      = [Event.invoked (Core.decrease_inv "1234" "1000" "0xPool"),
         Event.waited (Core.decrease_inv "1234" "1000" "0xPool"),
         Event.invoked (Core.collect_inv "1234" "0xW" "10" "20"),
         Event.waited (Core.collect_inv "1234" "0xW" "10" "20"),
         Event.invoked (Core.burn_inv "1234" "0xPool"),
         Event.waited (Core.burn_inv "1234" "0xPool"),
         Event.invoked (Core.mint_inv "0xW" 100 200 "0xPool" "0xT0" "0xT1" "10" "20"),
         Event.waited (Core.mint_inv "0xW" 100 200 "0xPool" "0xT0" "0xT1" "10" "20")] :=
  C8_wait_blocks_before_next_invoke wEx "0xW" "0xPool" "0xT0" "0xT1" "10" "20" 100 200
    (fun _ => [("tokenId", "5678")]) (fun _ => Option.none) (fun _ _ => true)
    (some "1234") (some "1000") 1000 rfl rfl (by decide)


/-- C9: the chatbot zero-liquidity guard compares the position liquidity to
the exact string "0": only a string value equal to "0" trips it, so for an
existing position with a truthy tokenId and any liquidity value different
from the string "0" (such as the integer 0 or the string "00") validation
passes and `decreaseLiquidity` is invoked first, carrying that liquidity
value verbatim. -/
theorem C9_zero_guard_exact_string
    (addr pool token0 token1 a0 a1 : String) (tick_a tick_b : Int)
    (res : Nat → Dict) (hap : String → String → Bool) (posd : PosDict)
    (hp1 : posd.isEmpty = false)
    (hp2 : (pget posd "tokenId").truthy = true)
    (hp3 : (pget posd "liquidity").eqStr "0" = false) :
    Val.eqStr (Val.i 0) "0" = false
    ∧ Val.eqStr (Val.s "00") "0" = false
    ∧ Val.eqStr (Val.s "0") "0" = true
    ∧ methodsOf (Chatbot.rebalance_liquidity ⟨addr, okEnv res, fun _ => some posd, hap⟩
        tick_a tick_b pool token0 token1 a0 a1).events
        = ["decreaseLiquidity", "collect", "burn", "mint"]
    ∧ (Chatbot.rebalance_liquidity ⟨addr, okEnv res, fun _ => some posd, hap⟩ tick_a tick_b
        pool token0 token1 a0 a1).events.head?
        = some (Event.invoked (Chatbot.decrease_inv (pget posd "tokenId")
            (pget posd "liquidity")))
    ∧ argLookup (Chatbot.decrease_inv (pget posd "tokenId") (pget posd "liquidity")).args
        "liquidity" = some (pget posd "liquidity") := by
  refine ⟨rfl, ?_, ?_, ?_, ?_, rfl⟩
  · simp [Val.eqStr]
  · simp [Val.eqStr]
  · simp [Chatbot.rebalance_liquidity, Chatbot.posFalsy, hp1, hp2, hp3, methodsOf,
      runCalls, okEnv, finish, Chatbot.decrease_inv, Chatbot.collect_inv, Chatbot.burn_inv,
      Chatbot.mint_inv]
  · simp [Chatbot.rebalance_liquidity, Chatbot.posFalsy, hp1, hp2, hp3, runCalls, okEnv,
      finish]

/-- Witness for C9: a position whose liquidity is the integer 0 passes
validation and decreaseLiquidity is issued first with that integer 0. -/
theorem C9_witness :
    Val.eqStr (Val.i 0) "0" = false
    ∧ Val.eqStr (Val.s "00") "0" = false
    ∧ Val.eqStr (Val.s "0") "0" = true
    ∧ methodsOf (Chatbot.rebalance_liquidity wExIntZero 100 200 "0xPool" "0xT0" "0xT1"
        "10" "20").events = ["decreaseLiquidity", "collect", "burn", "mint"]
    ∧ (Chatbot.rebalance_liquidity wExIntZero 100 200 "0xPool" "0xT0" "0xT1" "10"
        "20").events.head?
        = some (Event.invoked (Chatbot.decrease_inv (Val.s "1234") (Val.i 0)))
    ∧ argLookup (Chatbot.decrease_inv (Val.s "1234") (Val.i 0)).args "liquidity"
        = some (Val.i 0) :=
  C9_zero_guard_exact_string "0xW" "0xPool" "0xT0" "0xT1" "10" "20" 100 200
    (fun _ => [("tokenId", "5678")]) (fun _ _ => true)
    [("tokenId", Val.s "1234"), ("liquidity", Val.i 0)] rfl rfl rfl

/-- C10: in every run of either implementation, every `collect` invocation
sets `amount0Max` and `amount1Max` to the caller-supplied `amount0Desired`
and `amount1Desired`. -/
theorem C10_collect_capped_by_desired (w : Wallet) (tick_a tick_b : Int)
    (pool token0 token1 a0 a1 : String) (ep : Bool) (etid eliq : Option String)
    (inv : Invocation) :
    (inv ∈ invocationsOf (Core.rebalance_liquidity w tick_a tick_b pool token0 token1 a0 a1
        ep etid eliq).events → collectCappedByDesired a0 a1 inv)
    ∧ (inv ∈ invocationsOf (Chatbot.rebalance_liquidity w tick_a tick_b pool token0 token1
        a0 a1).events → collectCappedByDesired a0 a1 inv) := by
  constructor
  · intro hmem
    rcases core_invocations_cases w tick_a tick_b pool token0 token1 a0 a1 ep etid eliq inv
      hmem with h | h | h | h <;> subst h
    · intro hc; simp [Core.mint_inv] at hc
    · intro hc; simp [Core.decrease_inv] at hc
    · exact collect_core _ _ _ _
    · intro hc; simp [Core.burn_inv] at hc
  · intro hmem
    rcases chatbot_invocations_cases w tick_a tick_b pool token0 token1 a0 a1 inv hmem
      with h | h | h | h | h | h <;> subst h
    · intro hc; simp [Chatbot.approve_inv] at hc
    · intro hc; simp [Chatbot.approve_inv] at hc
    · intro hc; simp [Chatbot.mint_inv] at hc
    · intro hc; simp [Chatbot.decrease_inv] at hc
    · exact collect_bot _ _ _ _
    · intro hc; simp [Chatbot.burn_inv] at hc

/-- Witness for C10: the collect invocations of concrete rebalance runs of
both implementations carry the caller-supplied desired amounts as maxima. -/
theorem C10_witness :
    collectCappedByDesired "10" "20" (Core.collect_inv "1234" "0xW" "10" "20")
    ∧ collectCappedByDesired "10" "20" (Chatbot.collect_inv (Val.s "1234") "0xW" "10" "20") :=
  ⟨(C10_collect_capped_by_desired wEx 100 200 "0xPool" "0xT0" "0xT1" "10" "20" true
      (some "1234") (some "1000") (Core.collect_inv "1234" "0xW" "10" "20")).1 (by decide),
   (C10_collect_capped_by_desired
      ⟨"0xW", okEnv (fun _ => [("tokenId", "5678")]),
       fun _ => some [("tokenId", Val.s "1234"), ("liquidity", Val.s "1000")],
       fun _ _ => true⟩ 100 200 "0xPool" "0xT0" "0xT1" "10" "20" true
      (some "1234") (some "1000")
      (Chatbot.collect_inv (Val.s "1234") "0xW" "10" "20")).2 (by decide)⟩


end LPRebalance
